import Mathlib

/-!
Verification of the core of `space-invaders-js-v100` against its
natural-language specification.

The development shallowly embeds the JavaScript sources:

* `src/src/core/EntityManager.js` — entity storage, the spatial grid and
  `detectCollisions()` (section `EM` below);
* `src/src/core/Game.js` (the `Entity` class) — construction-time
  validation, `update`, `getBounds`, `isColliding`, `on`, `destroy`
  (section `GE` below);
* `src/src/core/Collision.js` — the `CollisionSystem` with its quadtree
  (`QuadTreeNode.insert`, `checkCollision`, `update`) and the `GameLoop`
  (fixed-timestep accumulator, error handling) (sections `CS` and `GL`).

JavaScript numbers are modelled as rationals (`ℚ`); where the sources can
hold non-finite numbers (`NaN`, `Infinity`) the value domain is modelled
explicitly (`JSVal`).  All definitions are executable.
-/

/-! ## Generic list helpers -/

/-- All ordered pairs `(l[i], l[j])` with `i < j`, in the order produced by
the two nested `for` loops (`i` outer, `j = i + 1` inner) used by both
`EntityManager.detectCollisions` and `CollisionSystem.update`. -/
def pairsOf {α : Type} : List α → List (α × α)
  | [] => []
  | x :: xs => (xs.map (fun y => (x, y))) ++ pairsOf xs

/-- Auxiliary for `dedupFirst`: drop elements already in `seen`. -/
def dedupFirstAux {α : Type} [DecidableEq α] (seen : List α) : List α → List α
  | [] => []
  | a :: l => if a ∈ seen then dedupFirstAux seen l else a :: dedupFirstAux (a :: seen) l

/-- Deduplicate a list keeping the first occurrence of each element.  This
is the key-ordering discipline of a JavaScript `Map`: iteration visits keys
in first-insertion order. -/
def dedupFirst {α : Type} [DecidableEq α] (l : List α) : List α := dedupFirstAux [] l

/-! ## EntityManager (`src/src/core/EntityManager.js`)

Entities as validated by `EntityManager.validateEntity`: string `id`,
numeric `x`/`y`/`width`/`height`, string `type`, boolean `active`. -/

structure MEntity where
  id : String
  x : ℚ
  y : ℚ
  width : ℚ
  height : ℚ
  type : String
  active : Bool
deriving DecidableEq, Repr

/-- `this.gridCellSize = 50` in the `EntityManager` constructor. -/
def gridCellSize : ℚ := 50

/-- The integer range `s, s+1, …, e` (empty when `e < s`), as produced by
`for (let v = s; v <= e; v++)`. -/
def intRange (s e : ℤ) : List ℤ :=
  (List.range (e - s + 1).toNat).map (fun (i : ℕ) => s + (i : ℤ))

/-- `EntityManager.getCellKeys`: the grid cells covered by the entity's
bounds, outer loop over `x`, inner loop over `y`.  The source builds string
keys `"x,y"`; the pair `(x, y)` is an injective rendering of that key. -/
def getCellKeys (e : MEntity) : List (ℤ × ℤ) :=
  let startX := ⌊e.x / gridCellSize⌋
  let startY := ⌊e.y / gridCellSize⌋
  let endX := ⌊(e.x + e.width) / gridCellSize⌋
  let endY := ⌊(e.y + e.height) / gridCellSize⌋
  (intRange startX endX).flatMap (fun cx => (intRange startY endY).map (fun cy => (cx, cy)))

/-- `EntityManager.checkCollision`: strict AABB overlap test. -/
def emCheckCollision (e1 e2 : MEntity) : Bool :=
  decide (e1.x < e2.x + e2.width) && decide (e1.x + e1.width > e2.x) &&
  decide (e1.y < e2.y + e2.height) && decide (e1.y + e1.height > e2.y)

/-- The keys of `this.spatialGrid` after the entities `es` are added in
order by `addEntity`: each `addEntity` call inserts the entity's cell keys
in `getCellKeys` order, and the `Map` keeps first-insertion key order. -/
def spatialCells (es : List MEntity) : List (ℤ × ℤ) :=
  dedupFirst (es.flatMap getCellKeys)

/-- The contents of grid cell `k` after the entities `es` are added in
order by `addEntity`: the cell's `Set` holds, in insertion order, exactly
the entities whose cell-key range covers `k`. -/
def cellEntities (es : List MEntity) (k : ℤ × ℤ) : List MEntity :=
  es.filter (fun e => decide (k ∈ getCellKeys e))

/-- `EntityManager.detectCollisions` on a manager populated by adding `es`
in order: for every grid cell, every `i < j` pair inside the cell passing
`checkCollision` is pushed.  No deduplication across cells is performed by
the source. -/
def detectCollisions (es : List MEntity) : List (MEntity × MEntity) :=
  (spatialCells es).flatMap
    (fun k => (pairsOf (cellEntities es k)).filter (fun p => emCheckCollision p.1 p.2))

/-- Modelled from the spec: the brute-force O(n²) reference sweep — apply
the AABB overlap test (`EntityManager.checkCollision`) to every unordered
pair of entities of `es` (each pair once, in `i < j` order). -/
def bruteForceCollisions (es : List MEntity) : List (MEntity × MEntity) :=
  (pairsOf es).filter (fun p => emCheckCollision p.1 p.2)

/-- Flip `active` on, leaving every other field unchanged (used to state
that `detectCollisions` never reads the `active` flag). -/
def mForceActive (e : MEntity) : MEntity := { e with active := true }

/-! ## Entity (`src/src/core/Game.js`, `Entity` class)

The constructor validates its config with `typeof config[prop] !==
'number'` checks only.  JavaScript values are modelled by `JSVal`: the
numeric kinds (`num`, `nan`, `inf`, `negInf`) have `typeof v === 'number'`;
`undef` and `other` stand for all non-number values. -/

inductive JSVal : Type where
  | num (q : ℚ)
  | nan
  | inf
  | negInf
  | undef
  | other
deriving DecidableEq, Repr

/-- `typeof v === 'number'` for a `JSVal`. -/
def typeofIsNumber : JSVal → Bool
  | .num _ | .nan | .inf | .negInf => true
  | _ => false

/-- The constructor argument of `Entity`; `speed` and `type` are optional
(the constructor defaults them through `||`).  They are modelled in the
finite fragment actually used by the game. -/
structure EntityConfig where
  x : JSVal
  y : JSVal
  width : JSVal
  height : JSVal
  speed : Option ℚ
  type : Option String
deriving DecidableEq, Repr

/-- `Entity._validateConfig`: walk `['x','y','width','height']` and throw
on the first property whose value is not of number type. -/
def validateConfigList : List (String × JSVal) → Except String Unit
  | [] => .ok ()
  | (name, v) :: rest =>
    if typeofIsNumber v then validateConfigList rest
    else .error ("Invalid " ++ name ++ ": must be a number")

/-- `Entity._validateConfig` applied to a config. -/
def validateConfig (c : EntityConfig) : Except String Unit :=
  validateConfigList [("x", c.x), ("y", c.y), ("width", c.width), ("height", c.height)]

/-- The `Entity` object state.  Coordinates are modelled as rationals: a
config whose numeric fields are non-finite still constructs (the source
stores the raw value); such entities are outside the finite fragment and
their fields are extracted as `0` by `jsToRat`.  `handlers` models
`_eventHandlers` (a `Map` from event name to an insertion-ordered `Set` of
opaque handler identifiers). -/
structure GEntity where
  id : String
  x : ℚ
  y : ℚ
  width : ℚ
  height : ℚ
  speed : ℚ
  type : String
  active : Bool
  visible : Bool
  vx : ℚ
  vy : ℚ
  handlers : List (String × List ℕ)
  debug : Bool
deriving DecidableEq, Repr

/-- Extraction of a finite numeric `JSVal`; non-finite values are outside
the rational model and map to `0`. -/
def jsToRat : JSVal → ℚ
  | .num q => q
  | _ => 0

/-- The `Entity` constructor: `_validateConfig(config)` then field
initialisation (`speed = config.speed || 0`, `type = config.type ||
'entity'`, `active = true`, `visible = true`, zero velocity, no handlers).
The thrown `Error` is the `Except.error` case. -/
def entityNew (uuid : String) (c : EntityConfig) : Except String GEntity :=
  match validateConfig c with
  | .error e => .error e
  | .ok _ => .ok
      { id := uuid
        x := jsToRat c.x
        y := jsToRat c.y
        width := jsToRat c.width
        height := jsToRat c.height
        speed := match c.speed with
          | none => 0
          | some q => if q = 0 then 0 else q
        type := match c.type with
          | none => "entity"
          | some s => if s = "" then "entity" else s
        active := true
        visible := true
        vx := 0
        vy := 0
        handlers := []
        debug := false }

/-- Collision boundaries, as returned by `Entity.getBounds`. -/
structure GBounds where
  left : ℚ
  right : ℚ
  top : ℚ
  bottom : ℚ
deriving DecidableEq, Repr

/-- `Entity.getBounds`. -/
def GEntity.getBounds (e : GEntity) : GBounds :=
  { left := e.x, right := e.x + e.width, top := e.y, bottom := e.y + e.height }

/-- `Entity.isColliding`: false when either entity is inactive, otherwise
the negated union of the four separation tests (`>=`/`<=`, so exactly
touching bounds do NOT collide). -/
def GEntity.isColliding (a other : GEntity) : Bool :=
  if !a.active || !other.active then false
  else
    let bounds := a.getBounds
    let otherBounds := other.getBounds
    !(decide (bounds.left ≥ otherBounds.right) ||
      decide (bounds.right ≤ otherBounds.left) ||
      decide (bounds.top ≥ otherBounds.bottom) ||
      decide (bounds.bottom ≤ otherBounds.top))

/-- `Entity.update`: no-op when inactive, otherwise integrate velocity
(`x += velocity.x * speed * (deltaTime / 1000)` and likewise for `y`).
The `update` event emission notifies opaque observers and changes no
entity field, so it is not part of the returned state. -/
def GEntity.update (e : GEntity) (deltaTime : ℚ) : GEntity :=
  if !e.active then e
  else { e with
    x := e.x + e.vx * e.speed * (deltaTime / 1000)
    y := e.y + e.vy * e.speed * (deltaTime / 1000) }

/-- `Map.get(ev).add(h)` with `Map.set(ev, new Set())` when absent, as in
`Entity.on`. -/
def addHandler : List (String × List ℕ) → String → ℕ → List (String × List ℕ)
  | [], ev, h => [(ev, [h])]
  | (k, hs) :: rest, ev, h =>
    if k = ev then (k, if h ∈ hs then hs else hs ++ [h]) :: rest
    else (k, hs) :: addHandler rest ev h

/-- `Entity.on(event, handler)`. -/
def GEntity.on (e : GEntity) (ev : String) (h : ℕ) : GEntity :=
  { e with handlers := addHandler e.handlers ev h }

/-- The handlers registered for event `ev` (empty when the event has no
entry), i.e. the set iterated by `Entity._emitEvent`. -/
def handlersFor (hs : List (String × List ℕ)) (ev : String) : List ℕ :=
  ((hs.find? (fun p => decide (p.1 = ev))).map (fun p => p.2)).getD []

/-- `Entity._emitEvent(ev)`: the identifiers of the handlers that get
called (each wrapped in try/catch by the source, so the call list does not
depend on handlers throwing). -/
def GEntity.emitEvent (e : GEntity) (ev : String) : List ℕ :=
  handlersFor e.handlers ev

/-- `Entity.destroy`: set `active = false`, `visible = false`, clear
`_eventHandlers`, then emit `'destroy'` — in that source order.  Returns
the new state together with the handler identifiers notified by the final
emission. -/
def GEntity.destroy (e : GEntity) : GEntity × List ℕ :=
  let cleared := { e with active := false, visible := false, handlers := [] }
  (cleared, cleared.emitEvent "destroy")

/-! ## CollisionSystem (`src/src/core/Collision.js`)

Entities handled by `CollisionSystem` expose `x`, `y` and
`getBoundingBox()`; the bounding box `{x, y, width, height}` carries the
same fields the quadtree reads, so a `CEntity` is its bounding box. -/

structure CEntity where
  x : ℚ
  y : ℚ
  width : ℚ
  height : ℚ
deriving DecidableEq, Repr

/-- The `CollisionResult` object: `{collided: false}` or
`{collided, entity1, entity2, intersection}` with the intersection point
`(max x, max y)` as a `Vector2D`. -/
structure CollisionResult where
  collided : Bool
  entity1 : Option CEntity
  entity2 : Option CEntity
  intersection : Option (ℚ × ℚ)
deriving DecidableEq, Repr

/-- `CollisionSystem.checkCollision`: AABB test with strict `<` in the
four separation checks, so exactly touching boxes count as a collision. -/
def csCheckCollision (entity1 entity2 : CEntity) : CollisionResult :=
  let e1 := entity1
  let e2 := entity2
  let collision :=
    !(decide (e1.x + e1.width < e2.x) || decide (e2.x + e2.width < e1.x) ||
      decide (e1.y + e1.height < e2.y) || decide (e2.y + e2.height < e1.y))
  if !collision then { collided := false, entity1 := none, entity2 := none, intersection := none }
  else
    { collided := true
      entity1 := some entity1
      entity2 := some entity2
      intersection := some (max e1.x e2.x, max e1.y e2.y) }

/-- Bounds of a quadtree node. -/
structure Box where
  x : ℚ
  y : ℚ
  width : ℚ
  height : ℚ
deriving DecidableEq, Repr

/-- A `QuadTreeNode`: bounds, depth, stored entities, optional four
children (in subdivision order: top-left, top-right, bottom-left,
bottom-right). -/
inductive QTree : Type where
  | node (bounds : Box) (depth : ℕ) (entities : List CEntity)
      (children : Option (QTree × QTree × QTree × QTree))

/-- `QuadTreeNode.contains`: the entity's `(x, y)` point lies within the
node's bounds (inclusive on all four edges). -/
def qtContains (bounds : Box) (e : CEntity) : Bool :=
  decide (e.x ≥ bounds.x) && decide (e.x ≤ bounds.x + bounds.width) &&
  decide (e.y ≥ bounds.y) && decide (e.y ≤ bounds.y + bounds.height)

/-- `QuadTreeNode.subdivide`: four children on quarter bounds, each at
`depth + 1`. -/
def qtSubdivide (bounds : Box) (depth : ℕ) : QTree × QTree × QTree × QTree :=
  let x := bounds.x
  let y := bounds.y
  let w := bounds.width / 2
  let h := bounds.height / 2
  (QTree.node ⟨x, y, w, h⟩ (depth + 1) [] none,
   QTree.node ⟨x + w, y, w, h⟩ (depth + 1) [] none,
   QTree.node ⟨x, y + h, w, h⟩ (depth + 1) [] none,
   QTree.node ⟨x + w, y + h, w, h⟩ (depth + 1) [] none)

/-- `QuadTreeNode.insert` (with `insertIntoChildren` inlined: try the four
children left to right, stopping at the first success).  `gas` bounds the
recursion depth; every call made by `CollisionSystem.update` uses
`gas = maxDepth + 1`, which covers the deepest possible chain because a
node at `depth ≥ maxDepth` stores the entity instead of recursing. -/
def qtInsert (cap maxDepth : ℕ) : ℕ → QTree → CEntity → QTree × Bool
  | 0, t, _ => (t, false)
  | gas + 1, QTree.node bounds depth es children, e =>
    if !qtContains bounds e then (QTree.node bounds depth es children, false)
    else
      match children with
      | some (c0, c1, c2, c3) =>
        let r0 := qtInsert cap maxDepth gas c0 e
        if r0.2 then (QTree.node bounds depth es (some (r0.1, c1, c2, c3)), true)
        else
          let r1 := qtInsert cap maxDepth gas c1 e
          if r1.2 then (QTree.node bounds depth es (some (r0.1, r1.1, c2, c3)), true)
          else
            let r2 := qtInsert cap maxDepth gas c2 e
            if r2.2 then (QTree.node bounds depth es (some (r0.1, r1.1, r2.1, c3)), true)
            else
              let r3 := qtInsert cap maxDepth gas c3 e
              (QTree.node bounds depth es (some (r0.1, r1.1, r2.1, r3.1)), r3.2)
      | none =>
        if es.length < cap || decide (depth ≥ maxDepth) then
          (QTree.node bounds depth (es ++ [e]) none, true)
        else
          let sub := qtSubdivide bounds depth
          let c0 := sub.1
          let c1 := sub.2.1
          let c2 := sub.2.2.1
          let c3 := sub.2.2.2
          let r0 := qtInsert cap maxDepth gas c0 e
          if r0.2 then (QTree.node bounds depth es (some (r0.1, c1, c2, c3)), true)
          else
            let r1 := qtInsert cap maxDepth gas c1 e
            if r1.2 then (QTree.node bounds depth es (some (r0.1, r1.1, c2, c3)), true)
            else
              let r2 := qtInsert cap maxDepth gas c2 e
              if r2.2 then (QTree.node bounds depth es (some (r0.1, r1.1, r2.1, c3)), true)
              else
                let r3 := qtInsert cap maxDepth gas c3 e
                (QTree.node bounds depth es (some (r0.1, r1.1, r2.1, r3.1)), r3.2)

/-- The `CollisionSystem` configuration (`worldBounds`,
`quadTreeCapacity`, `quadTreeMaxDepth`, defaults `800×600`, `4`, `5`). -/
structure QTConfig where
  worldBounds : Box
  quadTreeCapacity : ℕ
  quadTreeMaxDepth : ℕ
deriving DecidableEq, Repr

/-- `CollisionSystem.initialize`: a fresh root node (depth `0`) on the
world bounds. -/
def csInitialize (cfg : QTConfig) : QTree :=
  QTree.node cfg.worldBounds 0 [] none

/-- `CollisionSystem.update`: rebuild the quadtree, insert every entity,
then run `checkCollision` on every `i < j` pair of the INPUT list, keeping
the collided results.  Returns the built tree together with the returned
collision list. -/
def csUpdate (cfg : QTConfig) (es : List CEntity) : QTree × List CollisionResult :=
  let tree := es.foldl
    (fun t e => (qtInsert cfg.quadTreeCapacity cfg.quadTreeMaxDepth
      (cfg.quadTreeMaxDepth + 1) t e).1)
    (csInitialize cfg)
  let collisions := (pairsOf es).filterMap
    (fun p =>
      let result := csCheckCollision p.1 p.2
      if result.collided then some result else none)
  (tree, collisions)

/-- Modelled from the spec: the reference full sweep — `checkCollision`
applied to every index pair `i < j` of the input list, keeping the
collided results. -/
def bruteForceSweep (es : List CEntity) : List CollisionResult :=
  (pairsOf es).filterMap
    (fun p =>
      let result := csCheckCollision p.1 p.2
      if result.collided then some result else none)

/-! ## GameLoop (`src/src/core/Collision.js`, `GameLoop` class)

The loop state; the wall-clock performance counters (`stats`) are read
from `performance.now()` and are not part of the simulated-time model. -/

structure GameLoopState where
  isRunning : Bool
  lastFrameTime : ℚ
  accumulator : ℚ
  frameInterval : ℚ
  maxDeltaTime : ℚ
  errorCount : ℕ
  maxErrors : ℕ
deriving DecidableEq, Repr

/-- JavaScript `config.value || default` for an optional numeric config
entry: absent or `0` (falsy) picks the default. -/
def jsOrDefault (v : Option ℚ) (d : ℚ) : ℚ :=
  match v with
  | none => d
  | some q => if q = 0 then d else q

/-- The `GameLoop` constructor: `targetFPS = config.targetFPS || 60`,
`frameInterval = 1000 / targetFPS`, `maxDeltaTime = config.maxDeltaTime ||
33.33`, stopped, zeroed timing state, `maxErrors = 3`. -/
def gameLoopNew (cfgTargetFPS cfgMaxDeltaTime : Option ℚ) : GameLoopState :=
  let targetFPS := jsOrDefault cfgTargetFPS 60
  { isRunning := false
    lastFrameTime := 0
    accumulator := 0
    frameInterval := 1000 / targetFPS
    maxDeltaTime := jsOrDefault cfgMaxDeltaTime (3333 / 100)
    errorCount := 0
    maxErrors := 3 }

/-- `GameLoop.start` (after the callable check): running, `lastFrameTime`
captured from the clock, accumulator reset. -/
def gameLoopStart (st : GameLoopState) (now : ℚ) : GameLoopState :=
  { st with isRunning := true, lastFrameTime := now, accumulator := 0 }

/-- The `while (accumulator >= frameInterval)` drain.  `ok n` tells
whether the `n`-th `updateFn` call of this iteration returns normally or
throws.  Returns the final accumulator, the list of arguments passed to
the `updateFn` calls made (the source always passes `frameInterval`), and
whether a call threw (which in the source aborts the iteration before the
matching `accumulator -= frameInterval`).  The guard `0 < fi` restricts
the model to positive frame intervals; with `fi ≤ 0` the source loop would
not terminate. -/
def drainLoop (fi : ℚ) (ok : ℕ → Bool) (n : ℕ) (acc : ℚ) : ℚ × List ℚ × Bool :=
  if _h : 0 < fi ∧ fi ≤ acc then
    if ok n then
      let r := drainLoop fi ok (n + 1) (acc - fi)
      (r.1, fi :: r.2.1, r.2.2)
    else (acc, [fi], true)
  else (acc, [], false)
termination_by (⌈acc / fi⌉).toNat
decreasing_by
  obtain ⟨hfi, hle⟩ := _h
  have h1 : (acc - fi) / fi = acc / fi - 1 := by field_simp
  have h2 : ⌈(acc - fi) / fi⌉ = ⌈acc / fi⌉ - 1 := by rw [h1, Int.ceil_sub_one]
  have h3 : (1 : ℚ) ≤ acc / fi := (one_le_div hfi).mpr hle
  have h4 : (1 : ℤ) ≤ ⌈acc / fi⌉ := by exact_mod_cast h3.trans (Int.le_ceil (acc / fi))
  omega

/-- `GameLoop.handleError`: increment the error counter, then stop the
loop when it has reached `maxErrors`; otherwise reschedule (remain
running). -/
def handleError (st : GameLoopState) : GameLoopState :=
  let ec := st.errorCount + 1
  if ec ≥ st.maxErrors then { st with errorCount := ec, isRunning := false }
  else { st with errorCount := ec }

/-- The outcome of one scheduled `gameLoop(currentTime)` invocation. -/
structure IterResult where
  state : GameLoopState
  updateCalls : List ℚ
  failed : Bool
deriving DecidableEq, Repr

/-- One `gameLoop(currentTime)` invocation: bail out if stopped; cap the
delta at `maxDeltaTime`; advance `lastFrameTime`; accumulate; drain the
accumulator in fixed steps (update calls may throw, per `ok`); call
`renderFn` (which may throw, per `renderOk`); on success reset the error
counter, on a throw run `handleError`. -/
def gameLoopIter (st : GameLoopState) (currentTime : ℚ) (ok : ℕ → Bool)
    (renderOk : Bool) : IterResult :=
  if !st.isRunning then { state := st, updateCalls := [], failed := false }
  else
    let deltaTime := min (currentTime - st.lastFrameTime) st.maxDeltaTime
    let st1 := { st with
      lastFrameTime := currentTime
      accumulator := st.accumulator + deltaTime }
    let dr := drainLoop st1.frameInterval ok 0 st1.accumulator
    let st2 := { st1 with accumulator := dr.1 }
    if dr.2.2 then { state := handleError st2, updateCalls := dr.2.1, failed := true }
    else if !renderOk then { state := handleError st2, updateCalls := dr.2.1, failed := true }
    else { state := { st2 with errorCount := 0 }, updateCalls := dr.2.1, failed := false }

/-! ## Helper lemmas: lists -/

theorem mem_pairsOf {α : Type} {l : List α} {a b : α} :
    (a, b) ∈ pairsOf l ↔ List.Sublist [a, b] l := by
  induction l with
  | nil => simp [pairsOf]
  | cons x xs ih =>
    simp only [pairsOf, List.mem_append, List.mem_map, ih]
    constructor
    · rintro (⟨y, hy, heq⟩ | h)
      · obtain ⟨rfl, rfl⟩ : x = a ∧ y = b := by
          simpa [Prod.ext_iff] using heq
        exact List.cons_sublist_cons.mpr (List.singleton_sublist.mpr hy)
      · exact h.cons x
    · intro h
      rcases List.sublist_cons_iff.mp h with h' | ⟨r, hr, hrs⟩
      · right; exact h'
      · left
        obtain ⟨rfl, rfl⟩ : x = a ∧ r = [b] := by
          constructor <;> [skip; skip] <;> cases hr <;> rfl
        exact ⟨b, List.singleton_sublist.mp hrs, rfl⟩

theorem mem_dedupFirstAux {α : Type} [DecidableEq α] {seen l : List α} {a : α} :
    a ∈ dedupFirstAux seen l ↔ a ∈ l ∧ a ∉ seen := by
  induction l generalizing seen with
  | nil => simp [dedupFirstAux]
  | cons b l ih =>
    by_cases hb : b ∈ seen
    · simp only [dedupFirstAux, if_pos hb, ih, List.mem_cons]
      constructor
      · rintro ⟨h1, h2⟩; exact ⟨Or.inr h1, h2⟩
      · rintro ⟨h1 | h1, h2⟩
        · subst h1; exact absurd hb h2
        · exact ⟨h1, h2⟩
    · simp only [dedupFirstAux, if_neg hb, List.mem_cons, ih]
      by_cases hab : a = b
      · subst hab; simp [hb]
      · simp [hab]

theorem mem_dedupFirst {α : Type} [DecidableEq α] {l : List α} {a : α} :
    a ∈ dedupFirst l ↔ a ∈ l := by
  simp [dedupFirst, mem_dedupFirstAux]

theorem mem_intRange {s e k : ℤ} : k ∈ intRange s e ↔ s ≤ k ∧ k ≤ e := by
  unfold intRange
  rw [List.mem_map]
  constructor
  · rintro ⟨i, hi, rfl⟩
    rw [List.mem_range] at hi
    omega
  · rintro ⟨h1, h2⟩
    refine ⟨(k - s).toNat, ?_, ?_⟩
    · rw [List.mem_range]; omega
    · omega

/-! ## Helper lemmas: the spatial grid -/

theorem mem_getCellKeys {e : MEntity} {k : ℤ × ℤ} :
    k ∈ getCellKeys e ↔
      ⌊e.x / gridCellSize⌋ ≤ k.1 ∧ k.1 ≤ ⌊(e.x + e.width) / gridCellSize⌋ ∧
      ⌊e.y / gridCellSize⌋ ≤ k.2 ∧ k.2 ≤ ⌊(e.y + e.height) / gridCellSize⌋ := by
  obtain ⟨i, j⟩ := k
  simp only [getCellKeys, List.mem_flatMap, List.mem_map, mem_intRange, Prod.mk.injEq]
  constructor
  · rintro ⟨cx, hcx, cy, hcy, rfl, rfl⟩
    exact ⟨hcx.1, hcx.2, hcy.1, hcy.2⟩
  · rintro ⟨h1, h2, h3, h4⟩
    exact ⟨i, ⟨h1, h2⟩, j, ⟨h3, h4⟩, rfl, rfl⟩

theorem emCheckCollision_iff {a b : MEntity} :
    emCheckCollision a b = true ↔
      a.x < b.x + b.width ∧ b.x < a.x + a.width ∧
      a.y < b.y + b.height ∧ b.y < a.y + a.height := by
  simp only [emCheckCollision, Bool.and_eq_true, decide_eq_true_eq, gt_iff_lt]
  tauto

/-- Two strictly overlapping entities with nonnegative dimensions always
share at least one spatial-grid cell (the cell of the top-left corner of
the overlap region). -/
theorem exists_shared_cell {a b : MEntity}
    (hwa : 0 ≤ a.width) (hha : 0 ≤ a.height) (hwb : 0 ≤ b.width) (hhb : 0 ≤ b.height)
    (hc : emCheckCollision a b = true) :
    ∃ k, k ∈ getCellKeys a ∧ k ∈ getCellKeys b := by
  obtain ⟨h1, h2, h3, h4⟩ := emCheckCollision_iff.mp hc
  have h50 : (0 : ℚ) < gridCellSize := by norm_num [gridCellSize]
  have hdiv : ∀ u v : ℚ, u ≤ v → ⌊u / gridCellSize⌋ ≤ ⌊v / gridCellSize⌋ :=
    fun u v h => Int.floor_le_floor ((div_le_div_iff_of_pos_right h50).mpr h)
  refine ⟨(⌊max a.x b.x / gridCellSize⌋, ⌊max a.y b.y / gridCellSize⌋), ?_, ?_⟩ <;>
    rw [mem_getCellKeys]
  · exact ⟨hdiv _ _ (le_max_left _ _),
      hdiv _ _ (max_le (by linarith) h2.le),
      hdiv _ _ (le_max_left _ _),
      hdiv _ _ (max_le (by linarith) h4.le)⟩
  · exact ⟨hdiv _ _ (le_max_right _ _),
      hdiv _ _ (max_le h1.le (by linarith)),
      hdiv _ _ (le_max_right _ _),
      hdiv _ _ (max_le h3.le (by linarith))⟩

/-- Membership in `detectCollisions`: some grid cell holds both entities
(in `i < j` order) and the pair passes `checkCollision`. -/
theorem mem_detectCollisions {es : List MEntity} {a b : MEntity} :
    (a, b) ∈ detectCollisions es ↔
      ∃ k, k ∈ spatialCells es ∧ List.Sublist [a, b] (cellEntities es k) ∧
        emCheckCollision a b = true := by
  simp only [detectCollisions, List.mem_flatMap, List.mem_filter, mem_pairsOf]

/-! ## Claim C1 -/

/-- C1 (amended): for entities with nonnegative dimensions added via
`addEntity`, `detectCollisions()` finds exactly the same unordered SET of
colliding pairs as the brute-force check over every unordered pair — but
the source performs no cross-cell deduplication, so the claim's
"no pair reported more than once" part fails (see the counterexample). -/
theorem c1_detect_eq_bruteforce (es : List MEntity)
    (_hids : (es.map MEntity.id).Nodup)
    (hdim : ∀ e ∈ es, 0 ≤ e.width ∧ 0 ≤ e.height) (a b : MEntity) :
    (a, b) ∈ detectCollisions es ↔ (a, b) ∈ bruteForceCollisions es := by
  rw [mem_detectCollisions]
  simp only [bruteForceCollisions, List.mem_filter, mem_pairsOf]
  constructor
  · rintro ⟨k, hk, hsub, hcheck⟩
    exact ⟨hsub.trans (List.filter_sublist es), hcheck⟩
  · rintro ⟨hsub, hcheck⟩
    have ha : a ∈ es := hsub.subset (by simp)
    have hb : b ∈ es := hsub.subset (by simp)
    obtain ⟨k, hka, hkb⟩ := exists_shared_cell
      (hdim a ha).1 (hdim a ha).2 (hdim b hb).1 (hdim b hb).2 hcheck
    refine ⟨k, ?_, ?_, hcheck⟩
    · unfold spatialCells
      rw [mem_dedupFirst, List.mem_flatMap]
      exact ⟨a, ha, hka⟩
    · have h := List.Sublist.filter (fun e => decide (k ∈ getCellKeys e)) hsub
      have hfil : List.filter (fun e => decide (k ∈ getCellKeys e)) [a, b] = [a, b] := by
        simp [hka, hkb]
      rw [hfil] at h
      exact h

/-- C1 counterexample: two identical active 60×10 entities sit in both
grid cells `(0,0)` and `(1,0)`, so `detectCollisions` pushes their pair
once per shared cell — the pair is reported twice, while the brute-force
sweep reports it once.  This falsifies the claim's "no pair reported more
than once (deduplicated)" part. -/
theorem c1_counterexample :
    detectCollisions
        [⟨"a", 0, 0, 60, 10, "t", true⟩, ⟨"b", 0, 0, 60, 10, "t", true⟩] =
      [(⟨"a", 0, 0, 60, 10, "t", true⟩, ⟨"b", 0, 0, 60, 10, "t", true⟩),
       (⟨"a", 0, 0, 60, 10, "t", true⟩, ⟨"b", 0, 0, 60, 10, "t", true⟩)] ∧
    bruteForceCollisions
        [⟨"a", 0, 0, 60, 10, "t", true⟩, ⟨"b", 0, 0, 60, 10, "t", true⟩] =
      [(⟨"a", 0, 0, 60, 10, "t", true⟩, ⟨"b", 0, 0, 60, 10, "t", true⟩)] := by
  have hA : getCellKeys ⟨"a", 0, 0, 60, 10, "t", true⟩ = [(0, 0), (1, 0)] := by
    norm_num [getCellKeys, gridCellSize, intRange]
    decide
  have hB : getCellKeys ⟨"b", 0, 0, 60, 10, "t", true⟩ = [(0, 0), (1, 0)] := by
    norm_num [getCellKeys, gridCellSize, intRange]
    decide
  have hck : emCheckCollision ⟨"a", 0, 0, 60, 10, "t", true⟩ ⟨"b", 0, 0, 60, 10, "t", true⟩
      = true := by
    norm_num [emCheckCollision]
  constructor
  · have hcells : spatialCells
        [⟨"a", 0, 0, 60, 10, "t", true⟩, ⟨"b", 0, 0, 60, 10, "t", true⟩] = [(0, 0), (1, 0)] := by
      simp [spatialCells, hA, hB, dedupFirst, dedupFirstAux]
    have hcell0 : cellEntities
        [⟨"a", 0, 0, 60, 10, "t", true⟩, ⟨"b", 0, 0, 60, 10, "t", true⟩] (0, 0) =
        [⟨"a", 0, 0, 60, 10, "t", true⟩, ⟨"b", 0, 0, 60, 10, "t", true⟩] := by
      simp [cellEntities, hA, hB]
    have hcell1 : cellEntities
        [⟨"a", 0, 0, 60, 10, "t", true⟩, ⟨"b", 0, 0, 60, 10, "t", true⟩] (1, 0) =
        [⟨"a", 0, 0, 60, 10, "t", true⟩, ⟨"b", 0, 0, 60, 10, "t", true⟩] := by
      simp [cellEntities, hA, hB]
    simp only [detectCollisions, hcells, List.flatMap_cons, List.flatMap_nil,
      List.append_nil, hcell0, hcell1, pairsOf, List.map_nil, List.map_cons]
    simp [hck]
  · simp [bruteForceCollisions, pairsOf, hck]

/-- C1 witness: the amended theorem applied to the two-entity manager of
the counterexample. -/
theorem c1_witness :
    (([⟨"a", 0, 0, 60, 10, "t", true⟩, (⟨"b", 0, 0, 60, 10, "t", true⟩ : MEntity)].map
        MEntity.id).Nodup ∧
      (∀ e ∈ [⟨"a", 0, 0, 60, 10, "t", true⟩, (⟨"b", 0, 0, 60, 10, "t", true⟩ : MEntity)],
        0 ≤ e.width ∧ 0 ≤ e.height)) ∧
    ((⟨"a", 0, 0, 60, 10, "t", true⟩, (⟨"b", 0, 0, 60, 10, "t", true⟩ : MEntity)) ∈
        detectCollisions
          [⟨"a", 0, 0, 60, 10, "t", true⟩, ⟨"b", 0, 0, 60, 10, "t", true⟩] ↔
      (⟨"a", 0, 0, 60, 10, "t", true⟩, (⟨"b", 0, 0, 60, 10, "t", true⟩ : MEntity)) ∈
        bruteForceCollisions
          [⟨"a", 0, 0, 60, 10, "t", true⟩, ⟨"b", 0, 0, 60, 10, "t", true⟩]) :=
  ⟨⟨by decide, by decide⟩,
    c1_detect_eq_bruteforce _ (by decide) (by decide) _ _⟩

/-! ## Claim C8 -/

theorem pairsOf_map {α β : Type} (f : α → β) (l : List α) :
    pairsOf (l.map f) = (pairsOf l).map (fun p => (f p.1, f p.2)) := by
  induction l with
  | nil => simp [pairsOf]
  | cons x xs ih => simp [pairsOf, ih, List.map_map, Function.comp]

theorem getCellKeys_forceActive (e : MEntity) :
    getCellKeys (mForceActive e) = getCellKeys e := rfl

theorem spatialCells_forceActive (es : List MEntity) :
    spatialCells (es.map mForceActive) = spatialCells es := by
  unfold spatialCells
  rw [List.flatMap_map]
  simp only [getCellKeys_forceActive]

theorem cellEntities_forceActive (es : List MEntity) (k : ℤ × ℤ) :
    cellEntities (es.map mForceActive) k = (cellEntities es k).map mForceActive := by
  unfold cellEntities
  rw [List.filter_map]
  simp only [Function.comp_def, getCellKeys_forceActive]

/-- C8 (amended): a deactivated entity's `update` leaves `x` and `y`
unchanged for every `deltaTime`; but `EntityManager.detectCollisions`
performs no `active` check whatsoever — its output is independent of the
entities' `active` flags, so a deactivated entity still present in the
spatial grid participates in collision pairs (see the counterexample). -/
theorem c8_inactive_update_noop_detect_ignores_active :
    (∀ (e : GEntity) (dt : ℚ), e.active = false →
      (e.update dt).x = e.x ∧ (e.update dt).y = e.y) ∧
    (∀ es : List MEntity,
      detectCollisions (es.map mForceActive) =
        (detectCollisions es).map (fun p => (mForceActive p.1, mForceActive p.2))) := by
  constructor
  · intro e dt h
    simp [GEntity.update, h]
  · intro es
    unfold detectCollisions
    rw [spatialCells_forceActive, List.map_flatMap]
    congr 1
    funext k
    rw [cellEntities_forceActive, pairsOf_map, List.filter_map]
    rfl

/-- C8 counterexample: an inactive 10×10 entity at the origin and an
active overlapping one share grid cell `(0,0)`; `detectCollisions`
reports their pair even though the first entity is deactivated. -/
theorem c8_counterexample :
    (⟨"a", 0, 0, 10, 10, "t", false⟩, (⟨"b", 5, 5, 10, 10, "t", true⟩ : MEntity)) ∈
      detectCollisions [⟨"a", 0, 0, 10, 10, "t", false⟩, ⟨"b", 5, 5, 10, 10, "t", true⟩] ∧
    MEntity.active ⟨"a", 0, 0, 10, 10, "t", false⟩ = false := by
  refine ⟨?_, rfl⟩
  have hA : getCellKeys ⟨"a", 0, 0, 10, 10, "t", false⟩ = [(0, 0)] := by
    norm_num [getCellKeys, gridCellSize, intRange]
    decide
  have hB : getCellKeys ⟨"b", 5, 5, 10, 10, "t", true⟩ = [(0, 0)] := by
    norm_num [getCellKeys, gridCellSize, intRange]
    decide
  have hck : emCheckCollision ⟨"a", 0, 0, 10, 10, "t", false⟩ ⟨"b", 5, 5, 10, 10, "t", true⟩
      = true := by
    norm_num [emCheckCollision]
  have hcells : spatialCells
      [⟨"a", 0, 0, 10, 10, "t", false⟩, ⟨"b", 5, 5, 10, 10, "t", true⟩] = [(0, 0)] := by
    simp [spatialCells, hA, hB, dedupFirst, dedupFirstAux]
  have hcell0 : cellEntities
      [⟨"a", 0, 0, 10, 10, "t", false⟩, ⟨"b", 5, 5, 10, 10, "t", true⟩] (0, 0) =
      [⟨"a", 0, 0, 10, 10, "t", false⟩, ⟨"b", 5, 5, 10, 10, "t", true⟩] := by
    simp [cellEntities, hA, hB]
  simp only [detectCollisions, hcells, List.flatMap_cons, List.flatMap_nil,
    List.append_nil, hcell0, pairsOf, List.map_nil, List.map_cons]
  simp [hck]

/-- C8 witness: the amended theorem applied to a concrete inactive entity
and a concrete one-entity manager. -/
theorem c8_witness :
    (GEntity.active ⟨"g", 1, 2, 3, 4, 5, "t", false, true, 6, 7, [], false⟩ = false ∧
      ((GEntity.update ⟨"g", 1, 2, 3, 4, 5, "t", false, true, 6, 7, [], false⟩ 16).x =
        GEntity.x ⟨"g", 1, 2, 3, 4, 5, "t", false, true, 6, 7, [], false⟩ ∧
       (GEntity.update ⟨"g", 1, 2, 3, 4, 5, "t", false, true, 6, 7, [], false⟩ 16).y =
        GEntity.y ⟨"g", 1, 2, 3, 4, 5, "t", false, true, 6, 7, [], false⟩)) ∧
    detectCollisions ([⟨"m", 0, 0, 10, 10, "t", false⟩].map mForceActive) =
      (detectCollisions [⟨"m", 0, 0, 10, 10, "t", false⟩]).map
        (fun p => (mForceActive p.1, mForceActive p.2)) :=
  ⟨⟨rfl, c8_inactive_update_noop_detect_ignores_active.1 _ 16 rfl⟩,
    c8_inactive_update_noop_detect_ignores_active.2 _⟩

/-! ## Claim C10 -/

/-- C10: `CollisionSystem.update` builds the quadtree but never consults
it — for every configuration and entity list the returned collisions are
exactly the all-pairs (`i < j`) `checkCollision` results over the input
list.  The equality is definitional: pair generation reads only the input
list. -/
theorem c10_update_ignores_quadtree (cfg : QTConfig) (es : List CEntity) :
    (csUpdate cfg es).2 = bruteForceSweep es := rfl

/-! ## Claim C7 -/

/-- C7: entities whose bounding boxes touch exactly at a corner —
`(0,0,10,10)` and `(10,10,10,10)` — produce a result with
`collided = true` under `CollisionSystem.checkCollision` (its separation
tests use strict `<`). -/
theorem c7_touching_corner_collides :
    (csCheckCollision ⟨0, 0, 10, 10⟩ ⟨10, 10, 10, 10⟩).collided = true := by
  norm_num [csCheckCollision]

/-! ## Claim C6 -/

/-- C6 (amended): for active entities, `Entity.isColliding` returns true
exactly when the bounds overlap STRICTLY on both axes; bounds that are
disjoint on some axis give false, and — contrary to the claim — the
exactly-touching boundary case also gives false, because the separation
tests use `>=`/`<=` (see the counterexample). -/
theorem c6_isColliding_iff_strict_overlap (a b : GEntity)
    (ha : a.active = true) (hb : b.active = true) :
    (a.isColliding b = true ↔
      (a.x < b.x + b.width ∧ b.x < a.x + a.width ∧
       a.y < b.y + b.height ∧ b.y < a.y + a.height)) := by
  simp [GEntity.isColliding, GEntity.getBounds, ha, hb, not_le, and_assoc]

/-- C6 counterexample: two active 10×10 entities whose bounds touch
exactly (the first one's right edge equals the second one's left edge):
`isColliding` returns `false`, while the claim requires `true` for the
touching case. -/
theorem c6_counterexample :
    GEntity.isColliding ⟨"a", 0, 0, 10, 10, 0, "t", true, true, 0, 0, [], false⟩
        ⟨"b", 10, 0, 10, 10, 0, "t", true, true, 0, 0, [], false⟩ = false ∧
    GEntity.active ⟨"a", 0, 0, 10, 10, 0, "t", true, true, 0, 0, [], false⟩ = true ∧
    GEntity.active ⟨"b", 10, 0, 10, 10, 0, "t", true, true, 0, 0, [], false⟩ = true ∧
    GEntity.x ⟨"a", 0, 0, 10, 10, 0, "t", true, true, 0, 0, [], false⟩ +
        GEntity.width ⟨"a", 0, 0, 10, 10, 0, "t", true, true, 0, 0, [], false⟩ =
      GEntity.x ⟨"b", 10, 0, 10, 10, 0, "t", true, true, 0, 0, [], false⟩ := by
  refine ⟨?_, rfl, rfl, by norm_num⟩
  norm_num [GEntity.isColliding, GEntity.getBounds]

/-- C6 witness: the amended theorem applied to two concrete active,
strictly overlapping entities. -/
theorem c6_witness :
    (GEntity.active ⟨"a", 0, 0, 10, 10, 0, "t", true, true, 0, 0, [], false⟩ = true ∧
     GEntity.active ⟨"b", 5, 5, 10, 10, 0, "t", true, true, 0, 0, [], false⟩ = true) ∧
    (GEntity.isColliding ⟨"a", 0, 0, 10, 10, 0, "t", true, true, 0, 0, [], false⟩
        ⟨"b", 5, 5, 10, 10, 0, "t", true, true, 0, 0, [], false⟩ = true ↔
      ((0 : ℚ) < 5 + 10 ∧ (5 : ℚ) < 0 + 10 ∧ (0 : ℚ) < 5 + 10 ∧ (5 : ℚ) < 0 + 10)) :=
  ⟨⟨rfl, rfl⟩,
    c6_isColliding_iff_strict_overlap _ _ rfl rfl⟩

/-! ## Claim C5 -/

/-- C5 (amended): `Entity` construction fails exactly when one of `x`,
`y`, `width`, `height` is not of JavaScript number type.  Finiteness and
positivity are NOT checked: zero or negative dimensions and non-finite
numbers (`NaN`, `±Infinity`) are accepted, so zero-area entities can be
constructed and stored (see the counterexample). -/
theorem c5_construction_ok_iff_number_typed (uuid : String) (c : EntityConfig) :
    (∃ e, entityNew uuid c = .ok e) ↔
      (typeofIsNumber c.x = true ∧ typeofIsNumber c.y = true ∧
       typeofIsNumber c.width = true ∧ typeofIsNumber c.height = true) := by
  unfold entityNew validateConfig
  by_cases h1 : typeofIsNumber c.x = true <;>
    by_cases h2 : typeofIsNumber c.y = true <;>
      by_cases h3 : typeofIsNumber c.width = true <;>
        by_cases h4 : typeofIsNumber c.height = true <;>
          simp [validateConfigList, h1, h2, h3, h4]

/-- C5 counterexample: a config with `width = 0` (and one with
`x = NaN`) constructs successfully — no `ValidationError` — and the
resulting entity has zero area, refuting both the `width ≤ 0` rejection
and the finiteness rejection, and with it "no zero-area entity is ever
stored". -/
theorem c5_counterexample :
    entityNew "u" ⟨.num 0, .num 0, .num 0, .num 10, none, none⟩ =
      .ok ⟨"u", 0, 0, 0, 10, 0, "entity", true, true, 0, 0, [], false⟩ ∧
    entityNew "u" ⟨.nan, .num 0, .num 5, .num 5, none, none⟩ =
      .ok ⟨"u", 0, 0, 5, 5, 0, "entity", true, true, 0, 0, [], false⟩ := by
  constructor <;> rfl

/-! ## Claim C9 -/

/-- C9 (amended): `Entity.destroy` sets `active = false` and
`visible = false` and clears all listeners, but it clears the listener map
BEFORE emitting the final `destroy` notification, so the notification is
delivered to no listener — not to the listeners registered at the time of
the call, as the claim states (see the counterexample). -/
theorem c9_destroy_clears_then_emits (e : GEntity) :
    (e.destroy).1.active = false ∧ (e.destroy).1.visible = false ∧
    (e.destroy).1.handlers = [] ∧ (e.destroy).2 = [] :=
  ⟨rfl, rfl, rfl, rfl⟩

/-- C9 counterexample: an entity with one listener registered for
`'destroy'` at the time of the call; `destroy()` notifies nobody. -/
theorem c9_counterexample :
    (GEntity.on ⟨"e", 0, 0, 1, 1, 0, "entity", true, true, 0, 0, [], false⟩
        "destroy" 0).handlers = [("destroy", [0])] ∧
    ((GEntity.on ⟨"e", 0, 0, 1, 1, 0, "entity", true, true, 0, 0, [], false⟩
        "destroy" 0).destroy).2 = [] :=
  ⟨rfl, rfl⟩

/-! ## Helper lemmas: the game loop -/

/-- The fixed-timestep drain when every update call succeeds: the
accumulator is reduced modulo `frameInterval` and `updateFn` is called
`⌊acc / fi⌋` times, always with argument `fi`. -/
theorem drainLoop_ok_spec (fi : ℚ) (hfi : 0 < fi) (ok : ℕ → Bool) (hok : ∀ m, ok m = true) :
    ∀ (acc : ℚ), 0 ≤ acc → ∀ n : ℕ,
      drainLoop fi ok n acc =
        (acc - ⌊acc / fi⌋ * fi, List.replicate (⌊acc / fi⌋).toNat fi, false) := by
  suffices H : ∀ (N : ℕ) (acc : ℚ), (⌈acc / fi⌉).toNat ≤ N → 0 ≤ acc → ∀ n : ℕ,
      drainLoop fi ok n acc =
        (acc - ⌊acc / fi⌋ * fi, List.replicate (⌊acc / fi⌋).toNat fi, false) by
    exact fun acc hacc n => H (⌈acc / fi⌉).toNat acc le_rfl hacc n
  intro N
  induction N with
  | zero =>
    intro acc hN hacc n
    have hc : ⌈acc / fi⌉ ≤ 0 := by omega
    have hd : acc / fi ≤ 0 := by
      by_contra hcon
      push_neg at hcon
      have : (0 : ℤ) < ⌈acc / fi⌉ := Int.ceil_pos.mpr hcon
      omega
    have hacc0 : acc = 0 := le_antisymm (by
      by_contra hcon
      push_neg at hcon
      exact absurd (div_pos hcon hfi) (not_lt.mpr hd)) hacc
    subst hacc0
    rw [drainLoop]
    simp [hfi.not_le, zero_div, Int.floor_zero]
  | succ N ih =>
    intro acc hN hacc n
    rw [drainLoop]
    by_cases h : fi ≤ acc
    · rw [dif_pos ⟨hfi, h⟩, hok n]
      have hsub : (acc - fi) / fi = acc / fi - 1 := by field_simp
      have hfl : ⌊(acc - fi) / fi⌋ = ⌊acc / fi⌋ - 1 := by
        rw [hsub, Int.floor_sub_one]
      have hceil : ⌈(acc - fi) / fi⌉ = ⌈acc / fi⌉ - 1 := by
        rw [hsub, Int.ceil_sub_one]
      have hflpos : (1 : ℤ) ≤ ⌊acc / fi⌋ := by
        rw [Int.le_floor]
        exact_mod_cast (one_le_div hfi).mpr h
      have hceilN : (⌈acc / fi⌉).toNat ≤ N + 1 := hN
      have hceilpos : (1 : ℤ) ≤ ⌈acc / fi⌉ := by
        calc (1 : ℤ) ≤ ⌊acc / fi⌋ := hflpos
        _ ≤ ⌈acc / fi⌉ := Int.floor_le_ceil _
      have hrec := ih (acc - fi) (by omega) (by linarith) (n + 1)
      rw [if_pos rfl, hrec, hfl]
      refine Prod.ext ?_ (Prod.ext ?_ rfl)
      · push_cast
        ring
      · show fi :: List.replicate (⌊acc / fi⌋ - 1).toNat fi =
          List.replicate (⌊acc / fi⌋).toNat fi
        have hts : (⌊acc / fi⌋).toNat = (⌊acc / fi⌋ - 1).toNat + 1 := by omega
        rw [hts, List.replicate_succ]
    · rw [dif_neg (by tauto)]
      have hfl : ⌊acc / fi⌋ = 0 := by
        rw [Int.floor_eq_zero_iff]
        rw [Set.mem_Ico]
        constructor
        · positivity
        · rw [div_lt_one hfi]; linarith
      rw [hfl]
      norm_num

/-- The drain when the first update call of the iteration throws. -/
theorem drainLoop_throw (fi acc : ℚ) (ok : ℕ → Bool) (n : ℕ)
    (hfi : 0 < fi) (h : fi ≤ acc) (hok : ok n = false) :
    drainLoop fi ok n acc = (acc, [fi], true) := by
  rw [drainLoop, dif_pos ⟨hfi, h⟩, hok]
  simp

/-- Unfolding of `gameLoopIter` for a running loop. -/
theorem gameLoopIter_eq (st : GameLoopState) (hrun : st.isRunning = true)
    (t : ℚ) (ok : ℕ → Bool) (renderOk : Bool) :
    gameLoopIter st t ok renderOk =
      (let dr := drainLoop st.frameInterval ok 0
        (st.accumulator + min (t - st.lastFrameTime) st.maxDeltaTime)
       if dr.2.2 then
        { state := handleError { st with lastFrameTime := t, accumulator := dr.1 },
          updateCalls := dr.2.1, failed := true }
       else if !renderOk then
        { state := handleError { st with lastFrameTime := t, accumulator := dr.1 },
          updateCalls := dr.2.1, failed := true }
       else
        { state := { st with lastFrameTime := t, accumulator := dr.1, errorCount := 0 },
          updateCalls := dr.2.1, failed := false }) := by
  unfold gameLoopIter
  rw [hrun]
  rfl

/-! ## Claim C3 -/

/-- C3: for a running loop with a monotonic clock (`lastFrameTime ≤ t`),
positive frame interval, nonnegative delta cap and an in-range accumulator,
a completed (non-throwing) iteration leaves `0 ≤ accumulator <
frameInterval`. -/
theorem c3_accumulator_invariant (st : GameLoopState) (t : ℚ) (ok : ℕ → Bool)
    (hrun : st.isRunning = true) (hok : ∀ m, ok m = true)
    (hfi : 0 < st.frameInterval) (hmd : 0 ≤ st.maxDeltaTime)
    (hmono : st.lastFrameTime ≤ t)
    (hlo : 0 ≤ st.accumulator) (_hhi : st.accumulator < st.frameInterval) :
    0 ≤ (gameLoopIter st t ok true).state.accumulator ∧
      (gameLoopIter st t ok true).state.accumulator < st.frameInterval := by
  have hacc1 : 0 ≤ st.accumulator + min (t - st.lastFrameTime) st.maxDeltaTime := by
    have hdelta : 0 ≤ min (t - st.lastFrameTime) st.maxDeltaTime :=
      le_min (by linarith) hmd
    linarith
  rw [gameLoopIter_eq st hrun]
  simp only [drainLoop_ok_spec st.frameInterval hfi ok hok _ hacc1 0]
  simp only [Bool.not_true, Bool.false_eq_true, if_false]
  exact ⟨Int.sub_floor_div_mul_nonneg _ hfi, Int.sub_floor_div_mul_lt _ hfi⟩

/-! ## Claim C2 -/

/-- C2 (amended): in every completed iteration of a running loop the
applied delta is `min (currentTime - lastFrameTime) maxDeltaTime`, and
`updateFn` is called `⌊(accumulator + delta) / frameInterval⌋` times,
always with the fixed `frameInterval` (the call list is a `replicate` of
`frameInterval`).  The claim's 50 ms scenario — exactly 2 or 3 fixed
updates per iteration with `frameInterval = 16.67` — holds only when
`maxDeltaTime ≥ 50`; with the DEFAULT `maxDeltaTime = 33.33` the 50 ms
delta is capped and the first iteration performs a single update (see the
counterexample). -/
theorem c2_fixed_timestep :
    (∀ (st : GameLoopState) (t : ℚ) (ok : ℕ → Bool),
      st.isRunning = true → (∀ m, ok m = true) → 0 < st.frameInterval →
      0 ≤ st.accumulator → st.lastFrameTime ≤ t → 0 ≤ st.maxDeltaTime →
      (gameLoopIter st t ok true).updateCalls =
          List.replicate
            (⌊(st.accumulator + min (t - st.lastFrameTime) st.maxDeltaTime) /
                st.frameInterval⌋).toNat st.frameInterval ∧
        (gameLoopIter st t ok true).state.accumulator =
          st.accumulator + min (t - st.lastFrameTime) st.maxDeltaTime -
            ⌊(st.accumulator + min (t - st.lastFrameTime) st.maxDeltaTime) /
                st.frameInterval⌋ * st.frameInterval) ∧
    (∀ (st : GameLoopState) (t : ℚ) (ok : ℕ → Bool),
      st.isRunning = true → (∀ m, ok m = true) →
      st.frameInterval = 1667 / 100 → 50 ≤ st.maxDeltaTime →
      0 ≤ st.accumulator → st.accumulator < st.frameInterval →
      t - st.lastFrameTime = 50 →
      ((gameLoopIter st t ok true).updateCalls.length = 2 ∨
       (gameLoopIter st t ok true).updateCalls.length = 3)) := by
  have main : ∀ (st : GameLoopState) (t : ℚ) (ok : ℕ → Bool),
      st.isRunning = true → (∀ m, ok m = true) → 0 < st.frameInterval →
      0 ≤ st.accumulator → st.lastFrameTime ≤ t → 0 ≤ st.maxDeltaTime →
      (gameLoopIter st t ok true).updateCalls =
          List.replicate
            (⌊(st.accumulator + min (t - st.lastFrameTime) st.maxDeltaTime) /
                st.frameInterval⌋).toNat st.frameInterval ∧
        (gameLoopIter st t ok true).state.accumulator =
          st.accumulator + min (t - st.lastFrameTime) st.maxDeltaTime -
            ⌊(st.accumulator + min (t - st.lastFrameTime) st.maxDeltaTime) /
                st.frameInterval⌋ * st.frameInterval := by
    intro st t ok hrun hok hfi hlo hmono hmd
    have hacc1 : 0 ≤ st.accumulator + min (t - st.lastFrameTime) st.maxDeltaTime := by
      have hdelta : 0 ≤ min (t - st.lastFrameTime) st.maxDeltaTime :=
        le_min (by linarith) hmd
      linarith
    rw [gameLoopIter_eq st hrun]
    simp only [drainLoop_ok_spec st.frameInterval hfi ok hok _ hacc1 0]
    simp only [Bool.not_true, Bool.false_eq_true, if_false]
    constructor <;> trivial
  refine ⟨main, ?_⟩
  intro st t ok hrun hok hfi hmd50 hlo hhi ht
  have hfipos : 0 < st.frameInterval := by rw [hfi]; norm_num
  have hmin : min (t - st.lastFrameTime) st.maxDeltaTime = 50 := by
    rw [ht]; exact min_eq_left hmd50
  have h1 := (main st t ok hrun hok hfipos hlo (by linarith) (by linarith)).1
  rw [h1, List.length_replicate]
  simp only [hmin, hfi] at h1 ⊢
  set q : ℚ := (st.accumulator + 50) / (1667 / 100) with hq
  have hfl2 : (2 : ℤ) ≤ ⌊q⌋ := by
    rw [Int.le_floor]
    rw [hq, le_div_iff₀ (by norm_num : (0:ℚ) < 1667 / 100)]
    push_cast
    linarith
  have hfl4 : ⌊q⌋ < 4 := by
    rw [Int.floor_lt]
    rw [hq, div_lt_iff₀ (by norm_num : (0:ℚ) < 1667 / 100)]
    push_cast
    linarith
  omega

/-! ## Claim C4 -/

theorem handleError_errorCount (st : GameLoopState) :
    (handleError st).errorCount = st.errorCount + 1 := by
  by_cases h : st.errorCount + 1 ≥ st.maxErrors <;> simp [handleError, h]

theorem handleError_isRunning (st : GameLoopState) (hrun : st.isRunning = true) :
    ((handleError st).isRunning = true ↔ st.errorCount + 1 < st.maxErrors) := by
  unfold handleError
  by_cases h : st.errorCount + 1 ≥ st.maxErrors
  · simp only [h, if_true]
    simp only [Bool.false_eq_true, false_iff]
    omega
  · simp only [h, if_false]
    simp only [hrun, true_iff]
    omega

/-- C4: every update/render exception is absorbed by the iteration (the
step function always yields a successor state): a failing iteration
increments the error counter and the loop keeps running exactly while the
new count is below `maxErrors = 3` (stopping at the third consecutive
failure); a fully successful iteration resets the counter to `0` and keeps
running.  The concrete scenario: updates throwing on the first two
invocations and succeeding on the third leave the loop running with the
counter reset to `0`. -/
theorem c4_error_containment :
    (∀ (st : GameLoopState) (t : ℚ) (ok : ℕ → Bool) (renderOk : Bool),
      st.isRunning = true → st.maxErrors = 3 →
      (gameLoopIter st t ok renderOk).failed = true →
      ((gameLoopIter st t ok renderOk).state.errorCount = st.errorCount + 1 ∧
       ((gameLoopIter st t ok renderOk).state.isRunning = true ↔ st.errorCount + 1 < 3))) ∧
    (∀ (st : GameLoopState) (t : ℚ) (ok : ℕ → Bool) (renderOk : Bool),
      st.isRunning = true →
      (gameLoopIter st t ok renderOk).failed = false →
      ((gameLoopIter st t ok renderOk).state.errorCount = 0 ∧
       (gameLoopIter st t ok renderOk).state.isRunning = true)) ∧
    (gameLoopIter ⟨true, 0, 0, 10, 100, 0, 3⟩ 10 (fun _ => false) true =
        ⟨⟨true, 10, 10, 10, 100, 1, 3⟩, [10], true⟩ ∧
      gameLoopIter ⟨true, 10, 10, 10, 100, 1, 3⟩ 20 (fun _ => false) true =
        ⟨⟨true, 20, 20, 10, 100, 2, 3⟩, [10], true⟩ ∧
      gameLoopIter ⟨true, 20, 20, 10, 100, 2, 3⟩ 30 (fun _ => true) true =
        ⟨⟨true, 30, 0, 10, 100, 0, 3⟩, [10, 10, 10], false⟩) := by
  refine ⟨?_, ?_, ?_, ?_, ?_⟩
  · intro st t ok renderOk hrun hme hfail
    simp only [gameLoopIter_eq st hrun] at hfail ⊢
    by_cases hd : (drainLoop st.frameInterval ok 0
        (st.accumulator + min (t - st.lastFrameTime) st.maxDeltaTime)).2.2 = true
    · simp only [hd, if_true]
      exact ⟨handleError_errorCount _, by rw [← hme]; exact handleError_isRunning _ hrun⟩
    · simp only [hd, Bool.false_eq_true, if_false] at hfail ⊢
      by_cases hr : renderOk = true
      · simp [hr] at hfail
      · simp only [Bool.not_eq_true] at hr
        simp only [hr, Bool.not_false, if_true] at hfail ⊢
        exact ⟨handleError_errorCount _, by rw [← hme]; exact handleError_isRunning _ hrun⟩
  · intro st t ok renderOk hrun hfail
    simp only [gameLoopIter_eq st hrun] at hfail ⊢
    by_cases hd : (drainLoop st.frameInterval ok 0
        (st.accumulator + min (t - st.lastFrameTime) st.maxDeltaTime)).2.2 = true
    · simp [hd] at hfail
    · simp only [hd, Bool.false_eq_true, if_false] at hfail ⊢
      by_cases hr : renderOk = true
      · simp [hr, hrun]
      · simp only [Bool.not_eq_true] at hr
        simp [hr] at hfail
  · have hd1 : drainLoop (10 : ℚ) (fun _ => false) 0 (0 + min (10 - 0) 100) =
        (10, [10], true) := by
      rw [show (0 : ℚ) + min (10 - 0 : ℚ) 100 = 10 by norm_num]
      exact drainLoop_throw 10 10 _ 0 (by norm_num) (by norm_num) rfl
    simp only [gameLoopIter_eq ⟨true, 0, 0, 10, 100, 0, 3⟩ rfl, hd1]
    rfl
  · have hd2 : drainLoop (10 : ℚ) (fun _ => false) 0 (10 + min (20 - 10) 100) =
        (20, [10], true) := by
      rw [show (10 : ℚ) + min (20 - 10 : ℚ) 100 = 20 by norm_num]
      exact drainLoop_throw 10 20 _ 0 (by norm_num) (by norm_num) rfl
    simp only [gameLoopIter_eq ⟨true, 10, 10, 10, 100, 1, 3⟩ rfl, hd2]
    rfl
  · have hd3 : drainLoop (10 : ℚ) (fun _ => true) 0 (20 + min (30 - 20) 100) =
        (0, [10, 10, 10], false) := by
      rw [show (20 : ℚ) + min (30 - 20 : ℚ) 100 = 30 by norm_num]
      rw [drainLoop_ok_spec 10 (by norm_num) _ (fun _ => rfl) 30 (by norm_num) 0]
      norm_num [List.replicate]
    simp only [gameLoopIter_eq ⟨true, 20, 20, 10, 100, 2, 3⟩ rfl, hd3]
    rfl

/-- C2 counterexample: a `GameLoop` constructed with `targetFPS` giving
`frameInterval = 16.67` and the DEFAULT `maxDeltaTime = 33.33`, started at
time `0` and fed `currentTime = 50` (a 50 ms delta): the delta is capped
at `33.33`, so the first iteration performs exactly 1 fixed update — not
the 2 or 3 the claim asserts. -/
theorem c2_counterexample :
    gameLoopStart (gameLoopNew (some (100000 / 1667)) none) 0 =
      (⟨true, 0, 0, 1667 / 100, 3333 / 100, 0, 3⟩ : GameLoopState) ∧
    (gameLoopIter ⟨true, 0, 0, 1667 / 100, 3333 / 100, 0, 3⟩ 50
        (fun _ => true) true).updateCalls.length = 1 ∧
    ¬((gameLoopIter ⟨true, 0, 0, 1667 / 100, 3333 / 100, 0, 3⟩ 50
          (fun _ => true) true).updateCalls.length = 2 ∨
      (gameLoopIter ⟨true, 0, 0, 1667 / 100, 3333 / 100, 0, 3⟩ 50
          (fun _ => true) true).updateCalls.length = 3) := by
  have hst : gameLoopStart (gameLoopNew (some (100000 / 1667)) none) 0 =
      (⟨true, 0, 0, 1667 / 100, 3333 / 100, 0, 3⟩ : GameLoopState) := by
    norm_num [gameLoopStart, gameLoopNew, jsOrDefault]
  have hd : drainLoop (1667 / 100 : ℚ) (fun _ => true) 0 (0 + min (50 - 0) (3333 / 100)) =
      (3333 / 100 - 1 * (1667 / 100), [1667 / 100], false) := by
    rw [show (0 : ℚ) + min (50 - 0) (3333 / 100) = 3333 / 100 by
      rw [min_eq_right (by norm_num)]; ring]
    rw [drainLoop_ok_spec (1667 / 100) (by norm_num) _ (fun _ => rfl) (3333 / 100)
      (by norm_num) 0]
    norm_num [List.replicate]
  have hlen : (gameLoopIter ⟨true, 0, 0, 1667 / 100, 3333 / 100, 0, 3⟩ 50
      (fun _ => true) true).updateCalls.length = 1 := by
    simp only [gameLoopIter_eq ⟨true, 0, 0, 1667 / 100, 3333 / 100, 0, 3⟩ rfl, hd]
    rfl
  refine ⟨hst, hlen, ?_⟩
  simp [hlen]

/-- C3 witness: the invariant theorem applied to a concrete running
state. -/
theorem c3_witness :
    ((⟨true, 0, 5, 10, 100, 0, 3⟩ : GameLoopState).isRunning = true ∧
      (0 : ℚ) < 10 ∧ (0 : ℚ) ≤ 5 ∧ (5 : ℚ) < 10) ∧
    (0 ≤ (gameLoopIter ⟨true, 0, 5, 10, 100, 0, 3⟩ 30 (fun _ => true) true).state.accumulator ∧
      (gameLoopIter ⟨true, 0, 5, 10, 100, 0, 3⟩ 30
        (fun _ => true) true).state.accumulator < 10) :=
  ⟨⟨rfl, by norm_num, by norm_num, by norm_num⟩,
    c3_accumulator_invariant ⟨true, 0, 5, 10, 100, 0, 3⟩ 30 (fun _ => true) rfl
      (fun _ => rfl) (by norm_num) (by norm_num) (by norm_num) (by norm_num) (by norm_num)⟩

/-- C2 witness: both parts of the amended theorem applied to concrete
running states. -/
theorem c2_witness :
    ((⟨true, 0, 0, 10, 100, 0, 3⟩ : GameLoopState).isRunning = true ∧ (0 : ℚ) < 10 ∧
      (50 : ℚ) ≤ 50) ∧
    ((gameLoopIter ⟨true, 0, 0, 10, 100, 0, 3⟩ 25 (fun _ => true) true).updateCalls =
        List.replicate (⌊((0 : ℚ) + min (25 - 0) 100) / 10⌋).toNat 10 ∧
      (gameLoopIter ⟨true, 0, 0, 10, 100, 0, 3⟩ 25 (fun _ => true) true).state.accumulator =
        0 + min (25 - 0) 100 - ⌊((0 : ℚ) + min (25 - 0) 100) / 10⌋ * 10) ∧
    ((gameLoopIter ⟨true, 0, 0, 1667 / 100, 50, 0, 3⟩ 50
        (fun _ => true) true).updateCalls.length = 2 ∨
      (gameLoopIter ⟨true, 0, 0, 1667 / 100, 50, 0, 3⟩ 50
        (fun _ => true) true).updateCalls.length = 3) :=
  ⟨⟨rfl, by norm_num, le_rfl⟩,
    c2_fixed_timestep.1 ⟨true, 0, 0, 10, 100, 0, 3⟩ 25 (fun _ => true) rfl (fun _ => rfl)
      (by norm_num) le_rfl (by norm_num) (by norm_num),
    c2_fixed_timestep.2 ⟨true, 0, 0, 1667 / 100, 50, 0, 3⟩ 50 (fun _ => true) rfl
      (fun _ => rfl) rfl le_rfl le_rfl (by norm_num) (by norm_num)⟩

/-- C4 witness: the failing-iteration and successful-iteration parts of
the theorem applied to concrete running states. -/
theorem c4_witness :
    ((gameLoopIter ⟨true, 0, 0, 10, 100, 0, 3⟩ 10 (fun _ => false) true).failed = true ∧
      (gameLoopIter ⟨true, 20, 20, 10, 100, 2, 3⟩ 30 (fun _ => true) true).failed = false) ∧
    ((gameLoopIter ⟨true, 0, 0, 10, 100, 0, 3⟩ 10 (fun _ => false) true).state.errorCount = 1 ∧
      ((gameLoopIter ⟨true, 0, 0, 10, 100, 0, 3⟩ 10
          (fun _ => false) true).state.isRunning = true ↔ 0 + 1 < 3)) ∧
    ((gameLoopIter ⟨true, 20, 20, 10, 100, 2, 3⟩ 30
        (fun _ => true) true).state.errorCount = 0 ∧
      (gameLoopIter ⟨true, 20, 20, 10, 100, 2, 3⟩ 30
        (fun _ => true) true).state.isRunning = true) := by
  have hfail : (gameLoopIter ⟨true, 0, 0, 10, 100, 0, 3⟩ 10 (fun _ => false) true).failed
      = true := by
    rw [c4_error_containment.2.2.1]
  have hok : (gameLoopIter ⟨true, 20, 20, 10, 100, 2, 3⟩ 30 (fun _ => true) true).failed
      = false := by
    rw [c4_error_containment.2.2.2.2]
  exact ⟨⟨hfail, hok⟩,
    c4_error_containment.1 ⟨true, 0, 0, 10, 100, 0, 3⟩ 10 (fun _ => false) true rfl rfl hfail,
    c4_error_containment.2.1 ⟨true, 20, 20, 10, 100, 2, 3⟩ 30 (fun _ => true) true rfl hok⟩
